import Mathlib

/-!
Verification of the ValuTTS encoder-training core: a shallow embedding of
`TTS/bin/train_encoder.py` (the `train` loop and the restore logic of `main`)
and `TTS/encoder/configs/base_encoder_config.py` (the configuration schema and
its `check_values` validation), together with theorems settling the spec's
claims about them.

Conventions of the embedding:
* Python floats are modelled as rationals (`ℚ`); the arithmetic of the loop
  (exponential moving averages, learning rates) is exact in the source's
  formulas, so no rounding model is needed for the claims at hand.
* `float("inf")` (the initial `best_loss`) is modelled as `none : Option ℚ`.
* The data loader is modelled as the finite list of batches it yields in one
  pass; each processed batch contributes its scalar loss value and its loader
  latency, the two numbers the loop's bookkeeping actually consumes.
-/

namespace ValuTTS

/-- Hyperparameters of the validated configuration object `c` that the `train`
loop of `train_encoder.py` reads (batch composition, worker count, step
budgets, cadences, learning-rate settings). -/
structure Config where
  num_classes_in_batch : Nat
  num_utter_per_class : Nat
  num_loader_workers : Nat
  max_train_step : Nat
  save_step : Nat
  print_step : Nat
  steps_plot_stats : Nat
  lr : ℚ
  lr_decay : Bool
  grad_clip : ℚ
deriving DecidableEq

/-- Observable effect of one batch on the loop's bookkeeping: the scalar
`loss.item()` computed for the batch and the loader latency
`time.time() - end_time` measured just before processing it. -/
structure BatchObs where
  loss : ℚ
  loader_time : ℚ
deriving DecidableEq

/-- Mutable loop state of `train` (train_encoder.py lines 69-76):
`global_step`, the smoothed loss `avg_loss`, the accumulator `avg_loss_all`,
the smoothed loader latency `avg_loader_time`, the best-loss watermark
`best_loss` (initially `float("inf")`, modelled as `none`), plus the record
`saved` of checkpoints persisted so far as (global_step, avg_loss) pairs. -/
structure TrainState where
  global_step : Nat
  avg_loss : ℚ
  avg_loss_all : ℚ
  avg_loader_time : ℚ
  best_loss : Option ℚ
  saved : List (Nat × ℚ)
deriving DecidableEq

/-- Loop-state initialization at entry to `train` (lines 71-75): counters at
their start value, averages at 0, `best_loss = float("inf")`, nothing saved. -/
def initState (global_step : Nat) : TrainState :=
  { global_step := global_step, avg_loss := 0, avg_loss_all := 0,
    avg_loader_time := 0, best_loss := none, saved := [] }

/-- Line 128: `avg_loss = 0.01 * loss.item() + 0.99 * avg_loss if avg_loss != 0
else loss.item()`. -/
def update_avg_loss (loss avg_loss : ℚ) : ℚ :=
  if avg_loss ≠ 0 then 0.01 * loss + 0.99 * avg_loss else loss

/-- Line 129: `num_loader_workers = c.num_loader_workers if
c.num_loader_workers > 0 else 1`. -/
def effective_num_workers (c : Config) : Nat :=
  if c.num_loader_workers > 0 then c.num_loader_workers else 1

/-- Lines 130-134: `avg_loader_time = 1/W * loader_time + (W-1)/W *
avg_loader_time if avg_loader_time != 0 else loader_time`, with `W` the
effective worker count. -/
def update_avg_loader_time (c : Config) (loader_time avg_loader_time : ℚ) : ℚ :=
  if avg_loader_time ≠ 0 then
    1 / (effective_num_workers c : ℚ) * loader_time
      + ((effective_num_workers c : ℚ) - 1) / (effective_num_workers c : ℚ) * avg_loader_time
  else loader_time

/-- Predicate used by the checkpoint writer: the current smoothed loss beats
the best-loss watermark (`float("inf")` is beaten by everything). -/
def isNewBest (avg_loss : ℚ) : Option ℚ → Bool
  | none => true
  | some best => decide (avg_loss < best)

/-- Modelled from the spec: `save_best_model`
(`TTS.encoder.utils.generic_utils`, outside this excerpt) persists a
checkpoint exactly when the current smoothed loss is the best (lowest) seen so
far, and returns the updated best-loss watermark. The first component is the
checkpoint written, if any, as a (global_step, avg_loss) pair. -/
def save_best_model (avg_loss : ℚ) (best_loss : Option ℚ) (global_step : Nat) :
    Option (Nat × ℚ) × Option ℚ :=
  if isNewBest avg_loss best_loss then (some (global_step, avg_loss), some avg_loss)
  else (none, best_loss)

/-- One iteration of the `for` body of `train` (lines 78-169), restricted to
the bookkeeping the claims are about: `global_step += 1` (line 103), the two
moving-average updates (lines 128-134), `avg_loss_all += avg_loss` (line 160),
and the save trigger `global_step >= c.max_train_step or global_step %
c.save_step == 0` (lines 162-167), which calls `save_best_model`, resets
`avg_loss_all`, and `break`s when `global_step >= c.max_train_step`. Returns
the updated state and whether the `break` fires. -/
def trainStep (c : Config) (s : TrainState) (b : BatchObs) : TrainState × Bool :=
  let global_step := s.global_step + 1
  let avg_loss := update_avg_loss b.loss s.avg_loss
  let avg_loader_time := update_avg_loader_time c b.loader_time s.avg_loader_time
  let avg_loss_all := s.avg_loss_all + avg_loss
  if global_step ≥ c.max_train_step ∨ global_step % c.save_step = 0 then
    let sb := save_best_model avg_loss s.best_loss global_step
    let saved := match sb.1 with
      | some ck => s.saved ++ [ck]
      | none => s.saved
    ({ global_step := global_step, avg_loss := avg_loss, avg_loss_all := 0,
       avg_loader_time := avg_loader_time, best_loss := sb.2, saved := saved },
     decide (global_step ≥ c.max_train_step))
  else
    ({ global_step := global_step, avg_loss := avg_loss, avg_loss_all := avg_loss_all,
       avg_loader_time := avg_loader_time, best_loss := s.best_loss, saved := s.saved },
     false)

/-- The `for _, data in enumerate(data_loader):` loop of `train` (line 78):
a single pass over the loader's batch sequence, stopping early when
`trainStep` reports the `break` of line 167. -/
def trainLoop (c : Config) (s : TrainState) : List BatchObs → TrainState
  | [] => s
  | b :: rest =>
    if (trainStep c s b).2 then (trainStep c s b).1
    else trainLoop c (trainStep c s b).1 rest

/-- The `train` function (lines 69-171): runs the loop from the given initial
`global_step` and returns `avg_loss, global_step` (line 171). -/
def train (c : Config) (global_step : Nat) (batches : List BatchObs) : ℚ × Nat :=
  ((trainLoop c (initState global_step) batches).avg_loss,
   (trainLoop c (initState global_step) batches).global_step)

/-!
Batch regrouping (train_encoder.py lines 84-85):
`labels = torch.transpose(labels.view(c.num_utter_per_class,
c.num_classes_in_batch), 0, 1).reshape(labels.shape)` and the analogous line
for `inputs`. A flat tensor of length `U * C` is modelled as a function
`Fin (U * C) → α` (a tensor is its index-to-entry map); `view` is the
row-major reinterpretation as a `U × C` grid, using Mathlib's row-major
correspondence `finProdFinEquiv : Fin m × Fin n ≃ Fin (m * n)`,
`(i, j) ↦ j + n * i`; `transpose(_, 0, 1)` swaps the two axes; `reshape`
flattens back row-major.
-/

/-- `x.view(U, C)`: row-major reinterpretation of a flat length-`U * C` tensor
as a `U × C` grid: entry `(u, i)` is `x[u * C + i]`. -/
def view2d (U C : Nat) {α : Type} (x : Fin (U * C) → α) : Fin U → Fin C → α :=
  fun u i => x (finProdFinEquiv (u, i))

/-- `torch.transpose(g, 0, 1)`: swap the two axes of a grid. -/
def transpose2d {U C : Nat} {α : Type} (g : Fin U → Fin C → α) : Fin C → Fin U → α :=
  fun i u => g u i

/-- `.reshape(N)` on a `C × U` grid: row-major flattening back to a flat
tensor of length `C * U`. -/
def reshape_flat (C U : Nat) {α : Type} (g : Fin C → Fin U → α) : Fin (C * U) → α :=
  fun j => g (finProdFinEquiv.symm j).1 (finProdFinEquiv.symm j).2

/-- Lines 84-85: the regrouping transform `transpose(x.view(U, C), 0, 1)
.reshape(N)`, sending the sampler's utterance-major interleaving to the
class-major grouping the loss expects. -/
def regroup (U C : Nat) {α : Type} (x : Fin (U * C) → α) : Fin (C * U) → α :=
  reshape_flat C U (transpose2d (view2d U C x))

/-- Index correspondence of `regroup U C`: output position `j` reads input
position `regroupEquiv U C j`; an equivalence, viewing the transform as
unflatten, swap, reflatten on indices. -/
def regroupEquiv (U C : Nat) : Fin (C * U) ≃ Fin (U * C) :=
  finProdFinEquiv.symm.trans ((Equiv.prodComm (Fin C) (Fin U)).trans finProdFinEquiv)

theorem regroup_eq_comp (U C : Nat) {α : Type} (x : Fin (U * C) → α) :
    regroup U C x = fun j => x (regroupEquiv U C j) := rfl

theorem regroupEquiv_comp (U C : Nat) (i : Fin (U * C)) :
    regroupEquiv U C (regroupEquiv C U i) = i := by
  simp only [regroupEquiv, Equiv.trans_apply, Equiv.prodComm_apply,
    Equiv.symm_apply_apply, Prod.swap_swap]
  exact Equiv.apply_symm_apply _ i

theorem regroup_regroup (U C : Nat) {α : Type} (x : Fin (U * C) → α) :
    regroup C U (regroup U C x) = x := by
  funext i
  show x (regroupEquiv U C (regroupEquiv C U i)) = x i
  rw [regroupEquiv_comp]

theorem regroup_perm (U C : Nat) {α : Type} (x : Fin (U * C) → α) :
    (List.ofFn (regroup U C x)).Perm (List.ofFn x) := by
  have hmap : List.ofFn (regroup U C x)
      = ((List.finRange (C * U)).map (regroupEquiv U C)).map x := by
    rw [regroup_eq_comp, List.ofFn_eq_map, List.map_map]
    rfl
  have hperm : ((List.finRange (C * U)).map (regroupEquiv U C)).Perm
      (List.finRange (U * C)) := by
    rw [List.perm_ext_iff_of_nodup
      ((List.nodup_finRange (C * U)).map (regroupEquiv U C).injective)
      (List.nodup_finRange (U * C))]
    intro a
    simp only [List.mem_map, List.mem_finRange, iff_true, true_and]
    exact ⟨(regroupEquiv U C).symm a, Equiv.apply_symm_apply _ a⟩
  rw [hmap, List.ofFn_eq_map]
  exact hperm.map x

/-!
Configuration schema: `TTS/encoder/configs/base_encoder_config.py`.
`coqpit.MISSING` (a mandatory field left without a default) is modelled as
`none : Option Nat`. `audio : BaseAudioConfig` is represented by the one field
`check_values` reads from it, `num_mels`; `BaseAudioConfig` is outside this
excerpt, so `audio_num_mels` carries no schema default here.
-/

/-- Default `model_params` dict of `BaseEncoderConfig` (lines 17-26). -/
structure ModelParams where
  model_name : String := "lstm"
  input_dim : Nat := 80
  proj_dim : Nat := 256
  lstm_dim : Nat := 768
  num_lstm_layers : Nat := 3
  use_lstm_with_projection : Bool := true
deriving DecidableEq

/-- Validation failures of the configuration, the spec's ConfigurationError:
the `assert` of `check_values` (dimension mismatch) or a mandatory field left
at `MISSING`. -/
inductive ConfigurationError where
  | dimension_mismatch
  | missing_field (name : String)
deriving DecidableEq

/-- The `BaseEncoderConfig` dataclass (lines 9-51), with the schema defaults
of the source; the three data-loader fields declared `= MISSING` default to
`none`. -/
structure BaseEncoderConfig where
  model : Option String := none
  audio_num_mels : Nat
  model_params : ModelParams := {}
  max_train_step : Nat := 1000000
  loss : String := "angleproto"
  grad_clip : ℚ := 3
  lr : ℚ := 0.0001
  lr_decay : Bool := false
  warmup_steps : Nat := 4000
  wd : ℚ := 0.000001
  tb_model_param_stats : Bool := false
  steps_plot_stats : Nat := 10
  checkpoint : Bool := true
  save_step : Nat := 1000
  print_step : Nat := 20
  num_classes_in_batch : Option Nat := none
  num_utter_per_class : Option Nat := none
  num_loader_workers : Option Nat := none
  skip_classes : Bool := false
  voice_len : ℚ := 1.6
deriving DecidableEq

/-- Modelled from the spec: `super().check_values()`
(`BaseTrainingConfig.check_values`, outside this excerpt) rejects any
mandatory batch-composition field left unset (`MISSING`) with a
ConfigurationError naming the field. -/
def check_mandatory_fields (c : BaseEncoderConfig) : Except ConfigurationError Unit :=
  if c.num_classes_in_batch = none then .error (.missing_field "num_classes_in_batch")
  else if c.num_utter_per_class = none then .error (.missing_field "num_utter_per_class")
  else if c.num_loader_workers = none then .error (.missing_field "num_loader_workers")
  else .ok ()

/-- The `assert` of `check_values` (lines 55-58): the configured model input
dimension must equal the melspectrogram dimension. -/
def check_input_dim (c : BaseEncoderConfig) : Except ConfigurationError Unit :=
  if c.model_params.input_dim = c.audio_num_mels then .ok ()
  else .error .dimension_mismatch

/-- `BaseEncoderConfig.check_values` (lines 53-58): `super().check_values()`
followed by the input-dimension assertion. -/
def check_values (c : BaseEncoderConfig) : Except ConfigurationError Unit := do
  check_mandatory_fields c
  check_input_dim c

/-- The configuration produced by the schema defaults alone (every field at
its declared default; `audio_num_mels` is the one parameter with no schema
default in this excerpt). -/
def default_config (audio_num_mels : Nat) : BaseEncoderConfig :=
  { audio_num_mels := audio_num_mels }

/-!
Checkpoint restore: `main` of train_encoder.py, lines 203-223 and 237-238.
A tensor is modelled by its shape plus an abstract payload; a `state_dict` is
an association list from parameter names to tensors.
-/

/-- A model parameter: its shape and an abstract payload standing for the
entries. -/
structure Tensor where
  shape : List Nat
  data : ℚ
deriving DecidableEq

/-- `state_dict()`: parameter name to tensor. -/
abbrev StateDict : Type := List (String × Tensor)

/-- Exceptions of the restore path that line 211 catches: `except (KeyError,
RuntimeError)`. -/
inductive LoadError where
  | key_error
  | runtime_error
deriving DecidableEq

/-- The checkpoint record loaded at line 204: the `"model"` state dict, the
optional `"criterion"` state dict (line 208), and the stored `"step"`. -/
structure Checkpoint where
  model : StateDict
  criterion : Option StateDict
  step : Nat

/-- Value taken by parameter `(k, v)` under a strict load from `ck`: the
checkpoint's same-named tensor (the strict precondition guarantees one
exists). -/
def strict_value (ck : StateDict) (k : String) (v : Tensor) : Tensor :=
  match List.lookup k ck with
  | some t => t
  | none => v

/-- Value taken by parameter `(k, v)` under a partial load from `ck`: the
checkpoint's same-named tensor when its shape matches, otherwise the freshly
initialized value `v`. -/
def partial_value (ck : StateDict) (k : String) (v : Tensor) : Tensor :=
  match List.lookup k ck with
  | some t => if t.shape = v.shape then t else v
  | none => v

/-- `Module.load_state_dict(ckpt)` with default `strict=True`: succeeds, with
every parameter replaced by the checkpoint's same-named tensor, exactly when
the two dicts have the same keys with equal shapes; otherwise raises
`RuntimeError` (missing/unexpected keys or shape mismatch). -/
def load_state_dict (current ckpt : StateDict) : Except LoadError StateDict :=
  if (List.all current fun kv =>
        match List.lookup kv.1 ckpt with
        | some t => decide (t.shape = kv.2.shape)
        | none => false)
      && (List.all ckpt fun kv => (List.lookup kv.1 current).isSome)
  then .ok (List.map (fun kv => (kv.1, strict_value ckpt kv.1 kv.2)) current)
  else .error .runtime_error

/-- Modelled from the spec: `set_init_dict` (`TTS.utils.generic_utils`,
outside this excerpt) copies into the freshly initialized `model_dict` only
those checkpoint parameters that match by name and shape, leaving every other
parameter unchanged. -/
def set_init_dict (model_dict ckpt : StateDict) : StateDict :=
  List.map (fun kv => (kv.1, partial_value ckpt kv.1 kv.2)) model_dict

/-- Lines 205-216: `try` the strict loads of model and (when present)
criterion; `except (KeyError, RuntimeError)` falls back to
`set_init_dict(model.state_dict(), checkpoint["model"], c)` applied to the
model (at that point the model's state dict is whatever the strict attempt
left: the fresh dict if the model load raised, the loaded one if only the
criterion load raised), keeping the criterion as initialized. The result is
`.error` only for an exception the `except` clause does not catch; the model
produces none. -/
def restore_models (model criterion : StateDict) (ckpt : Checkpoint) :
    Except LoadError (StateDict × StateDict) :=
  match load_state_dict model ckpt.model with
  | .ok loaded_model =>
    match ckpt.criterion with
    | some ckpt_criterion =>
      match load_state_dict criterion ckpt_criterion with
      | .ok loaded_criterion => .ok (loaded_model, loaded_criterion)
      | .error _ => .ok (set_init_dict loaded_model ckpt.model, criterion)
    | none => .ok (loaded_model, criterion)
  | .error _ => .ok (set_init_dict model ckpt.model, criterion)

/-- Optimizer state visible to the restore path: the `"lr"` entry of each
param group. -/
structure Optimizer where
  param_groups : List ℚ
deriving DecidableEq

/-- Lines 217-223 and 237: on restore, reset every param group's `lr` to
`c.lr` and take the checkpoint's `"step"` as `args.restore_step`; without a
restore path, `args.restore_step = 0`. The second component is the
`global_step` handed to `train` at line 237-238. -/
def restore_optimizer_and_step (c_lr : ℚ) (opt : Optimizer) (ckpt : Option Checkpoint) :
    Optimizer × Nat :=
  match ckpt with
  | some ck => (⟨List.map (fun _ => c_lr) opt.param_groups⟩, ck.step)
  | none => (opt, 0)

/-!
Helper lemmas characterizing one `trainStep` and the loop.
-/

theorem trainStep_global_step (c : Config) (s : TrainState) (b : BatchObs) :
    ((trainStep c s b).1).global_step = s.global_step + 1 := by
  simp only [trainStep]
  split <;> rfl

theorem trainStep_avg_loss (c : Config) (s : TrainState) (b : BatchObs) :
    ((trainStep c s b).1).avg_loss = update_avg_loss b.loss s.avg_loss := by
  simp only [trainStep]
  split <;> rfl

theorem trainStep_avg_loader_time (c : Config) (s : TrainState) (b : BatchObs) :
    ((trainStep c s b).1).avg_loader_time = update_avg_loader_time c b.loader_time s.avg_loader_time := by
  simp only [trainStep]
  split <;> rfl

theorem trainStep_break (c : Config) (s : TrainState) (b : BatchObs) :
    (trainStep c s b).2 = decide (s.global_step + 1 ≥ c.max_train_step) := by
  simp only [trainStep]
  split
  · rfl
  · next h =>
    rw [not_or] at h
    simp only [decide_eq_false h.1]

theorem trainStep_saved (c : Config) (s : TrainState) (b : BatchObs) :
    ((trainStep c s b).1).saved =
      if (s.global_step + 1 ≥ c.max_train_step ∨ (s.global_step + 1) % c.save_step = 0)
          ∧ isNewBest (update_avg_loss b.loss s.avg_loss) s.best_loss = true
      then s.saved ++ [(s.global_step + 1, update_avg_loss b.loss s.avg_loss)]
      else s.saved := by
  simp only [trainStep, save_best_model]
  split
  · next htr =>
    by_cases hb : isNewBest (update_avg_loss b.loss s.avg_loss) s.best_loss = true
    · simp [htr, hb]
    · simp [htr, hb]
  · next htr =>
    simp [htr]

theorem trainStep_best_loss (c : Config) (s : TrainState) (b : BatchObs) :
    ((trainStep c s b).1).best_loss =
      if (s.global_step + 1 ≥ c.max_train_step ∨ (s.global_step + 1) % c.save_step = 0)
          ∧ isNewBest (update_avg_loss b.loss s.avg_loss) s.best_loss = true
      then some (update_avg_loss b.loss s.avg_loss)
      else s.best_loss := by
  simp only [trainStep, save_best_model]
  split
  · next htr =>
    by_cases hb : isNewBest (update_avg_loss b.loss s.avg_loss) s.best_loss = true
    · simp [htr, hb]
    · simp [htr, hb]
  · next htr =>
    simp [htr]

theorem trainLoop_global_step (c : Config) (bs : List BatchObs) :
    ∀ s : TrainState, s.global_step < c.max_train_step →
      (trainLoop c s bs).global_step = min (s.global_step + bs.length) c.max_train_step := by
  induction bs with
  | nil =>
    intro s h
    simp only [trainLoop, List.length_nil]
    omega
  | cons b rest ih =>
    intro s h
    simp only [trainLoop, List.length_cons]
    by_cases hbrk : (trainStep c s b).2 = true
    · rw [if_pos hbrk]
      rw [trainStep_break, decide_eq_true_iff] at hbrk
      rw [trainStep_global_step]
      omega
    · rw [if_neg hbrk]
      rw [trainStep_break, decide_eq_true_iff] at hbrk
      rw [ih ((trainStep c s b).1) (by rw [trainStep_global_step]; omega)]
      rw [trainStep_global_step]
      omega

theorem trainLoop_saved_mod (c : Config) (bs : List BatchObs) :
    ∀ s : TrainState, s.global_step + bs.length < c.max_train_step →
      ∀ e ∈ (trainLoop c s bs).saved, e ∈ s.saved ∨ e.1 % c.save_step = 0 := by
  induction bs with
  | nil =>
    intro s _ e he
    exact Or.inl he
  | cons b rest ih =>
    intro s h e he
    simp only [List.length_cons] at h
    have hbrk : ¬((trainStep c s b).2 = true) := by
      rw [trainStep_break, decide_eq_true_iff]
      omega
    rw [trainLoop, if_neg hbrk] at he
    have h' : ((trainStep c s b).1).global_step + rest.length < c.max_train_step := by
      rw [trainStep_global_step]
      omega
    rcases ih ((trainStep c s b).1) h' e he with hin | hmod
    · rw [trainStep_saved] at hin
      split at hin
      · next hc =>
        rcases List.mem_append.1 hin with hold | hnew
        · exact Or.inl hold
        · have he1 : e.1 = s.global_step + 1 := by
            rw [List.mem_singleton] at hnew
            rw [hnew]
          refine Or.inr ?_
          rw [he1]
          rcases hc.1 with hmax | hmodstep
          · omega
          · exact hmodstep
      · exact Or.inl hin
    · exact Or.inr hmod

/-!
Concrete configurations and batch sequences used by witnesses,
counterexamples, and the end-to-end scenario of C4.
-/

/-- A configuration with the schema's default step budgets and one loader
worker. -/
def demoConfig : Config :=
  { num_classes_in_batch := 2, num_utter_per_class := 3, num_loader_workers := 1,
    max_train_step := 1000000, save_step := 1000, print_step := 20,
    steps_plot_stats := 10, lr := 0.0001, lr_decay := false, grad_clip := 3 }

/-- `demoConfig` with two loader workers. -/
def demoConfigW2 : Config :=
  { demoConfig with num_loader_workers := 2 }

/-- The C4 scenario configuration: `max_train_step = 5`, `save_step = 1000`. -/
def scenarioConfig : Config :=
  { demoConfig with max_train_step := 5 }

/-- Six identical batches of loss 7: more batches than the scenario's step
budget of 5. -/
def scenarioBatches : List BatchObs :=
  List.replicate 6 { loss := 7, loader_time := 0 }

/-- A small configuration for the C10 witness: step budget 10, save cadence 2. -/
def shortLoaderConfig : Config :=
  { demoConfig with max_train_step := 10, save_step := 2 }

/-!
Claim theorems.
-/

/-- C1: in the train loop, `global_step` increases by exactly 1 for every
processed batch (first conjunct, for an arbitrary step), and starting below
`max_train_step` the loop terminates at `global_step =
min (start + number of batches) max_train_step`: once `global_step` reaches
`max_train_step` the loop breaks, so no `(max_train_step + 1)`-th batch is
processed, and `train` returns the final smoothed loss together with this
step count. -/
theorem claim1_step_and_termination (c : Config) (g0 : Nat) (batches : List BatchObs)
    (s : TrainState) (b : BatchObs) (h : g0 < c.max_train_step) :
    ((trainStep c s b).1).global_step = s.global_step + 1 ∧
    (train c g0 batches).2 = min (g0 + batches.length) c.max_train_step := by
  refine ⟨trainStep_global_step c s b, ?_⟩
  exact trainLoop_global_step c batches (initState g0) h

/-- Witness for C1 at a concrete run: budget 5, seven batches, final step 5. -/
theorem claim1_witness :
    ((trainStep scenarioConfig (initState 3) { loss := 2, loader_time := 0 }).1).global_step
        = (initState 3).global_step + 1 ∧
    (train scenarioConfig 0 (List.replicate 7 { loss := 2, loader_time := 0 })).2
        = min (0 + (List.replicate 7 { loss := 2, loader_time := 0 } : List BatchObs).length)
            scenarioConfig.max_train_step :=
  claim1_step_and_termination scenarioConfig 0 (List.replicate 7 { loss := 2, loader_time := 0 })
    (initState 3) { loss := 2, loader_time := 0 } (by decide)

/-- C3 as stated is false on the code: with losses 0 then 1, the first loss
seeds `avg = 0`, and at the second step the code re-seeds (`avg_loss != 0`
fails), producing `avg = 1`, whereas the claimed recurrence
`avg_n = 0.01*L_n + 0.99*avg_(n-1)` would give `0.01`. -/
theorem claim3_counterexample :
    (train demoConfig 0 [{ loss := 0, loader_time := 0 }]).1 = 0 ∧
    (train demoConfig 0 [{ loss := 0, loader_time := 0 }, { loss := 1, loader_time := 0 }]).1 = 1 ∧
    (1 : ℚ) ≠ 0.01 * 1 + 0.99 * 0 := by
  refine ⟨?_, ?_, by norm_num⟩ <;>
    norm_num [train, trainLoop, trainStep, initState, demoConfig, update_avg_loss,
      update_avg_loader_time, effective_num_workers, save_best_model, isNewBest]

/-- C3 amended: after the first observed loss `L0` the smoothed loss equals
`L0` exactly; at every later step the recurrence `avg_n = 0.01*L_n +
0.99*avg_(n-1)` holds whenever the previous average is nonzero, and whenever
the previous average is zero the new loss re-seeds the average directly. -/
theorem claim3_ema_loss (c : Config) (g0 : Nat) (L0 t : ℚ) (s s0 : TrainState) (b : BatchObs)
    (h : s.avg_loss ≠ 0) (h0 : s0.avg_loss = 0) :
    (train c g0 [{ loss := L0, loader_time := t }]).1 = L0 ∧
    ((trainStep c s b).1).avg_loss = 0.01 * b.loss + 0.99 * s.avg_loss ∧
    ((trainStep c s0 b).1).avg_loss = b.loss := by
  refine ⟨?_, ?_, ?_⟩
  · show (trainLoop c (initState g0) [{ loss := L0, loader_time := t }]).avg_loss = L0
    simp only [trainLoop]
    split <;>
      rw [trainStep_avg_loss] <;>
      simp [update_avg_loss, initState]
  · rw [trainStep_avg_loss]
    simp [update_avg_loss, h]
  · rw [trainStep_avg_loss]
    simp [update_avg_loss, h0]

/-- Witness for C3 (amended) at concrete states: previous average 2 and loss
3 gives `0.01*3 + 0.99*2`; previous average 0 re-seeds. -/
theorem claim3_witness :
    (train demoConfig 0 [{ loss := 5, loader_time := 0 }]).1 = 5 ∧
    ((trainStep demoConfig { initState 0 with avg_loss := 2 } { loss := 3, loader_time := 0 }).1).avg_loss
        = 0.01 * 3 + 0.99 * 2 ∧
    ((trainStep demoConfig (initState 0) { loss := 3, loader_time := 0 }).1).avg_loss = 3 :=
  claim3_ema_loss demoConfig 0 5 0 { initState 0 with avg_loss := 2 } (initState 0)
    { loss := 3, loader_time := 0 } (by decide) (by decide)

/-- C4: a checkpoint is persisted at a step exactly when the new
`global_step` reaches `max_train_step` or is a multiple of `save_step`, and
then only if the smoothed loss is the best (lowest) seen so far; the
best-loss watermark is updated on exactly those writes. In the end-to-end
scenario `max_train_step = 5, save_step = 1000` with six batches of loss 7,
the loop exits after exactly 5 steps and a single final checkpoint has been
written at step 5 by the max_train_step trigger. -/
theorem claim4_checkpoint_policy (c : Config) (s : TrainState) (b : BatchObs) :
    (((trainStep c s b).1).saved =
      if (s.global_step + 1 ≥ c.max_train_step ∨ (s.global_step + 1) % c.save_step = 0)
          ∧ isNewBest (update_avg_loss b.loss s.avg_loss) s.best_loss = true
      then s.saved ++ [(s.global_step + 1, update_avg_loss b.loss s.avg_loss)]
      else s.saved) ∧
    (((trainStep c s b).1).best_loss =
      if (s.global_step + 1 ≥ c.max_train_step ∨ (s.global_step + 1) % c.save_step = 0)
          ∧ isNewBest (update_avg_loss b.loss s.avg_loss) s.best_loss = true
      then some (update_avg_loss b.loss s.avg_loss)
      else s.best_loss) ∧
    (train scenarioConfig 0 scenarioBatches).2 = 5 ∧
    (trainLoop scenarioConfig (initState 0) scenarioBatches).saved = [(5, 7)] := by
  refine ⟨trainStep_saved c s b, trainStep_best_loss c s b, ?_, ?_⟩ <;>
    norm_num [train, trainLoop, trainStep, initState, scenarioConfig, demoConfig,
      scenarioBatches, List.replicate, update_avg_loss, update_avg_loader_time,
      effective_num_workers, save_best_model, isNewBest]

/-- C8 as stated is false on the code: with two workers and loader times 0
then 1, the first observation seeds `avg = 0`, and at the second step the
code re-seeds (`avg_loader_time != 0` fails), producing `avg = 1`, whereas
the claimed scheme `avg = 1/2*new + 1/2*avg` would give `1/2`. -/
theorem claim8_counterexample :
    (trainLoop demoConfigW2 (initState 0)
        [{ loss := 5, loader_time := 0 }]).avg_loader_time = 0 ∧
    (trainLoop demoConfigW2 (initState 0)
        [{ loss := 5, loader_time := 0 }, { loss := 5, loader_time := 1 }]).avg_loader_time = 1 ∧
    (1 : ℚ) ≠ 1 / 2 * 1 + (2 - 1) / 2 * 0 := by
  refine ⟨?_, ?_, by norm_num⟩ <;>
    norm_num [trainLoop, trainStep, initState, demoConfigW2, demoConfig, update_avg_loss,
      update_avg_loader_time, effective_num_workers, save_best_model, isNewBest]

/-- C8 amended: the smoothed loader latency follows
`avg = (1/W)*new + ((W-1)/W)*avg` with `W` the effective worker count
whenever the previous average is nonzero; whenever it is zero (in particular
at the first observation) the new sample seeds the average directly; and for
zero or one configured worker the scheme degenerates to factor `1/1`, so the
average tracks the newest sample. -/
theorem claim8_loader_time (c cd : Config) (s s0 s1 : TrainState) (b : BatchObs)
    (h : s.avg_loader_time ≠ 0) (h0 : s0.avg_loader_time = 0)
    (hw : cd.num_loader_workers ≤ 1) :
    ((trainStep c s b).1).avg_loader_time
        = 1 / (effective_num_workers c : ℚ) * b.loader_time
          + ((effective_num_workers c : ℚ) - 1) / (effective_num_workers c : ℚ)
            * s.avg_loader_time ∧
    ((trainStep c s0 b).1).avg_loader_time = b.loader_time ∧
    effective_num_workers cd = 1 ∧
    ((trainStep cd s1 b).1).avg_loader_time = b.loader_time := by
  have hcd : effective_num_workers cd = 1 := by
    unfold effective_num_workers
    split <;> omega
  refine ⟨?_, ?_, hcd, ?_⟩
  · rw [trainStep_avg_loader_time]
    simp [update_avg_loader_time, h]
  · rw [trainStep_avg_loader_time]
    simp [update_avg_loader_time, h0]
  · rw [trainStep_avg_loader_time]
    unfold update_avg_loader_time
    rw [hcd]
    split
    · push_cast
      ring
    · rfl

/-- Witness for C8 (amended) at concrete states: two workers, previous
average 4, new sample 2. -/
theorem claim8_witness :
    ((trainStep demoConfigW2 { initState 0 with avg_loader_time := 4 }
        { loss := 5, loader_time := 2 }).1).avg_loader_time
      = 1 / (effective_num_workers demoConfigW2 : ℚ) * 2
        + ((effective_num_workers demoConfigW2 : ℚ) - 1)
          / (effective_num_workers demoConfigW2 : ℚ) * 4 ∧
    ((trainStep demoConfigW2 (initState 0) { loss := 5, loader_time := 2 }).1).avg_loader_time = 2 ∧
    effective_num_workers demoConfig = 1 ∧
    ((trainStep demoConfig { initState 0 with avg_loader_time := 4 }
        { loss := 5, loader_time := 2 }).1).avg_loader_time = 2 :=
  claim8_loader_time demoConfigW2 demoConfig
    { initState 0 with avg_loader_time := 4 } (initState 0)
    { initState 0 with avg_loader_time := 4 }
    { loss := 5, loader_time := 2 } (by decide) (by decide) (by decide)

/-- C10: the loop makes a single pass over the loader's batches; when the
loader yields fewer batches than the remaining step budget, the loop
terminates by exhaustion at `global_step` = start + number of batches, below
`max_train_step`, and every checkpoint written came from the `save_step`
divisibility trigger (its step is a multiple of `save_step`), never from the
max_train_step trigger. -/
theorem claim10_loader_exhaustion (c : Config) (g0 : Nat) (batches : List BatchObs)
    (h : g0 + batches.length < c.max_train_step) :
    (train c g0 batches).2 = g0 + batches.length ∧
    (train c g0 batches).2 < c.max_train_step ∧
    ∀ e ∈ (trainLoop c (initState g0) batches).saved, e.1 % c.save_step = 0 := by
  have h1 : (trainLoop c (initState g0) batches).global_step
      = min (g0 + batches.length) c.max_train_step :=
    trainLoop_global_step c batches (initState g0) (by show g0 < c.max_train_step; omega)
  refine ⟨?_, ?_, ?_⟩
  · show (trainLoop c (initState g0) batches).global_step = g0 + batches.length
    omega
  · show (trainLoop c (initState g0) batches).global_step < c.max_train_step
    omega
  · intro e he
    rcases trainLoop_saved_mod c batches (initState g0) h e he with hin | hmod
    · simp [initState] at hin
    · exact hmod

/-- Witness for C10 at a concrete run: budget 10, save cadence 2, three
batches: the loop stops at step 3 with one checkpoint, written at step 2. -/
theorem claim10_witness :
    (train shortLoaderConfig 0 (List.replicate 3 { loss := 2, loader_time := 0 })).2
        = 0 + (List.replicate 3 { loss := 2, loader_time := 0 } : List BatchObs).length ∧
    (train shortLoaderConfig 0 (List.replicate 3 { loss := 2, loader_time := 0 })).2
        < shortLoaderConfig.max_train_step ∧
    ∀ e ∈ (trainLoop shortLoaderConfig (initState 0)
        (List.replicate 3 { loss := 2, loader_time := 0 })).saved,
      e.1 % shortLoaderConfig.save_step = 0 :=
  claim10_loader_exhaustion shortLoaderConfig 0
    (List.replicate 3 { loss := 2, loader_time := 0 }) (by decide)

/-- C2: for a batch of `N = num_classes_in_batch * num_utter_per_class`
elements, the regrouping transform (view as utterances-per-class ×
classes-per-batch, transpose, flatten) is a bijective, label-preserving
permutation: the input-to-output index map is a bijection; applying the
transform and then its inverse transpose restores the original ordering; the
multiset of (feature, label) pairs is unchanged; and regrouping the paired
sequence is the pairing of the regrouped features with the regrouped labels,
so each feature keeps its label. -/
theorem claim2_regroup_permutation (U C : Nat) (x : Fin (U * C) → ℚ × Nat)
    (feats : Fin (U * C) → ℚ) (labs : Fin (U * C) → Nat) :
    Function.Bijective (fun i : Fin (U * C) => (regroupEquiv U C).symm i) ∧
    regroup C U (regroup U C x) = x ∧
    (List.ofFn (regroup U C x)).Perm (List.ofFn x) ∧
    regroup U C (fun i => (feats i, labs i))
      = fun j => (regroup U C feats j, regroup U C labs j) :=
  ⟨(regroupEquiv U C).symm.bijective, regroup_regroup U C x, regroup_perm U C x, rfl⟩

/-- C5: a configuration whose `model_params.input_dim` differs from
`audio.num_mels` is rejected by `check_values` with a ConfigurationError
(the validation is a pure check on the configuration record, run before any
training resource exists); a configuration in which they are equal passes
this dimension check. -/
theorem claim5_input_dim_validation (c cg : BaseEncoderConfig)
    (hne : c.model_params.input_dim ≠ c.audio_num_mels)
    (heq : cg.model_params.input_dim = cg.audio_num_mels) :
    (∃ e, check_values c = .error e) ∧ check_input_dim cg = .ok () := by
  constructor
  · unfold check_values
    cases hm : check_mandatory_fields c with
    | error e =>
      exact ⟨e, by simp [hm, Bind.bind, Except.bind]⟩
    | ok u =>
      cases u
      refine ⟨.dimension_mismatch, ?_⟩
      simp [hm, Bind.bind, Except.bind, check_input_dim, hne]
  · simp [check_input_dim, heq]

/-- Witness for C5: the all-defaults configuration with 81 mel bands
(`input_dim = 80`) is rejected; with 80 mel bands the dimension check
passes. -/
theorem claim5_witness :
    (∃ e, check_values (default_config 81) = .error e) ∧
    check_input_dim (default_config 80) = .ok () :=
  claim5_input_dim_validation (default_config 81) (default_config 80) (by decide) (by decide)

/-- C9: in the schema `num_classes_in_batch`, `num_utter_per_class` and
`num_loader_workers` default to `MISSING` (no usable default value), and a
configuration leaving any of them unset fails validation with a
ConfigurationError instead of receiving a silent default. -/
theorem claim9_mandatory_fields (m : Nat) (c : BaseEncoderConfig)
    (h : c.num_classes_in_batch = none ∨ c.num_utter_per_class = none
        ∨ c.num_loader_workers = none) :
    (default_config m).num_classes_in_batch = none ∧
    (default_config m).num_utter_per_class = none ∧
    (default_config m).num_loader_workers = none ∧
    ∃ e, check_values c = .error e := by
  refine ⟨rfl, rfl, rfl, ?_⟩
  have hmf : ∃ e, check_mandatory_fields c = .error e := by
    unfold check_mandatory_fields
    by_cases h1 : c.num_classes_in_batch = none
    · exact ⟨.missing_field "num_classes_in_batch", by simp [h1]⟩
    · by_cases h2 : c.num_utter_per_class = none
      · exact ⟨.missing_field "num_utter_per_class", by simp [h1, h2]⟩
      · have h3 : c.num_loader_workers = none := by tauto
        exact ⟨.missing_field "num_loader_workers", by simp [h1, h2, h3]⟩
  rcases hmf with ⟨e, he⟩
  exact ⟨e, by simp [check_values, he, Bind.bind, Except.bind]⟩

/-- Witness for C9: the all-defaults configuration itself has the three
fields unset and fails validation. -/
theorem claim9_witness :
    (default_config 80).num_classes_in_batch = none ∧
    (default_config 80).num_utter_per_class = none ∧
    (default_config 80).num_loader_workers = none ∧
    ∃ e, check_values (default_config 80) = .error e :=
  claim9_mandatory_fields 80 (default_config 80) (Or.inl rfl)

/-- C7: after restoring from a checkpoint, every optimizer param group's
learning rate equals the configured `c.lr` no matter what the checkpoint
stored; the checkpoint's stored step becomes the `global_step` handed to the
train loop (with no batches the loop reports exactly that step); with no
restore path, `global_step` starts at 0. -/
theorem claim7_restore_lr_and_step (c_lr : ℚ) (opt : Optimizer) (ck : Checkpoint)
    (tc : Config) (g : ℚ)
    (hg : g ∈ (restore_optimizer_and_step c_lr opt (some ck)).1.param_groups) :
    g = c_lr ∧
    (restore_optimizer_and_step c_lr opt (some ck)).2 = ck.step ∧
    (restore_optimizer_and_step c_lr opt none).2 = 0 ∧
    (train tc (restore_optimizer_and_step c_lr opt (some ck)).2 []).2 = ck.step := by
  refine ⟨?_, rfl, rfl, rfl⟩
  simp only [restore_optimizer_and_step, List.mem_map] at hg
  rcases hg with ⟨a, _, ha⟩
  exact ha.symm

/-- Witness for C7: optimizer with groups at lr 3 and 5, configured lr 2,
checkpoint step 42: each group becomes 2, the loop starts (and with no
batches ends) at step 42. -/
theorem claim7_witness :
    (2 : ℚ) = 2 ∧
    (restore_optimizer_and_step 2 ⟨[3, 5]⟩ (some ⟨[], none, 42⟩)).2 = (⟨[], none, 42⟩ : Checkpoint).step ∧
    (restore_optimizer_and_step 2 ⟨[3, 5]⟩ none).2 = 0 ∧
    (train demoConfig (restore_optimizer_and_step 2 ⟨[3, 5]⟩ (some ⟨[], none, 42⟩)).2 []).2
      = (⟨[], none, 42⟩ : Checkpoint).step :=
  claim7_restore_lr_and_step 2 ⟨[3, 5]⟩ ⟨[], none, 42⟩ demoConfig 2 (by simp [restore_optimizer_and_step])

/-!
Lookup lemmas for state dicts, and the C6 restore theorem.
-/

theorem lookup_map_entry (f : String → Tensor → Tensor) (k : String) :
    ∀ l : List (String × Tensor),
      List.lookup k (List.map (fun kv => (kv.1, f kv.1 kv.2)) l)
        = Option.map (f k) (List.lookup k l)
  | [] => rfl
  | (k2, v) :: rest => by
    by_cases hk : k = k2
    · subst hk
      simp [List.lookup_cons]
    · simp [List.lookup_cons, beq_false_of_ne hk, lookup_map_entry f k rest]

theorem mem_of_lookup (k : String) (v : Tensor) :
    ∀ l : List (String × Tensor), List.lookup k l = some v → (k, v) ∈ l
  | [], h => by simp [List.lookup] at h
  | (k2, v2) :: rest, h => by
    by_cases hk : k = k2
    · subst hk
      rw [List.lookup_cons] at h
      simp at h
      simp [h]
    · rw [List.lookup_cons] at h
      rw [beq_false_of_ne hk] at h
      exact List.mem_cons_of_mem _ (mem_of_lookup k v rest h)

theorem lookup_set_init_dict (md ck : StateDict) (k : String) :
    List.lookup k (set_init_dict md ck)
      = Option.map (partial_value ck k) (List.lookup k md) :=
  lookup_map_entry (partial_value ck) k md

/-- Under a successful strict load, every current parameter has a same-named,
same-shaped checkpoint tensor. -/
theorem load_state_dict_ok_matches {current ckpt res : StateDict}
    (h : load_state_dict current ckpt = .ok res) {k : String} {v : Tensor}
    (hk : List.lookup k current = some v) :
    ∃ t, List.lookup k ckpt = some t ∧ t.shape = v.shape := by
  unfold load_state_dict at h
  split at h
  · next hcond =>
    rw [Bool.and_eq_true] at hcond
    have hall := List.all_eq_true.1 hcond.1 (k, v) (mem_of_lookup k v current hk)
    cases ht : List.lookup k ckpt with
    | none => rw [ht] at hall; simp at hall
    | some t =>
      rw [ht] at hall
      simp at hall
      exact ⟨t, rfl, hall⟩
  · exact absurd h (by simp)

/-- A successful strict load replaces every parameter by the checkpoint's
same-named tensor. -/
theorem load_state_dict_ok_eq {current ckpt res : StateDict}
    (h : load_state_dict current ckpt = .ok res) :
    res = List.map (fun kv => (kv.1, strict_value ckpt kv.1 kv.2)) current := by
  unfold load_state_dict at h
  split at h
  · simp only [Except.ok.injEq] at h
    exact h.symm
  · exact absurd h (by simp)

/-- The restore path never surfaces an exception: every branch, including the
fallback for a structural mismatch, produces a result. -/
theorem restore_models_ok (model criterion : StateDict) (ckpt : Checkpoint) :
    ∃ r, restore_models model criterion ckpt = .ok r := by
  unfold restore_models
  repeat' split
  all_goals exact ⟨_, rfl⟩

/-- C6: restoring from a checkpoint with mismatched parameter keys or shapes
never raises (the `except (KeyError, RuntimeError)` fallback covers every
failure the strict loads produce), and the resulting model parameters are
exactly a partial load: each parameter takes the checkpoint's tensor when a
same-name, same-shape entry exists, and keeps its freshly initialized value
otherwise. -/
theorem claim6_restore_fallback (model criterion : StateDict) (ckpt : Checkpoint)
    (k : String) (v : Tensor) (m2 cr : StateDict)
    (hk : List.lookup k model = some v)
    (hres : restore_models model criterion ckpt = .ok (m2, cr)) :
    (∀ e, restore_models model criterion ckpt ≠ .error e) ∧
    List.lookup k m2 = some (partial_value ckpt.model k v) := by
  constructor
  · intro e he
    rcases restore_models_ok model criterion ckpt with ⟨r, hr⟩
    rw [hr] at he
    exact Except.noConfusion he
  · unfold restore_models at hres
    split at hres
    · next lm hm =>
      have hlm : List.lookup k lm = some (strict_value ckpt.model k v) := by
        rw [load_state_dict_ok_eq hm]
        rw [lookup_map_entry (strict_value ckpt.model) k model, hk]
        rfl
      rcases load_state_dict_ok_matches hm hk with ⟨t, ht, hshape⟩
      have hsv : strict_value ckpt.model k v = t := by
        simp [strict_value, ht]
      have hpv : partial_value ckpt.model k v = t := by
        simp [partial_value, ht, hshape]
      have hgoal_lm : List.lookup k lm = some (partial_value ckpt.model k v) := by
        rw [hlm, hsv, hpv]
      have hgoal_set : List.lookup k (set_init_dict lm ckpt.model)
          = some (partial_value ckpt.model k v) := by
        rw [lookup_set_init_dict, hlm, hsv]
        simp [partial_value, ht, hshape]
      split at hres
      · split at hres
        · simp only [Except.ok.injEq, Prod.mk.injEq] at hres
          rw [← hres.1]
          exact hgoal_lm
        · simp only [Except.ok.injEq, Prod.mk.injEq] at hres
          rw [← hres.1]
          exact hgoal_set
      · simp only [Except.ok.injEq, Prod.mk.injEq] at hres
        rw [← hres.1]
        exact hgoal_lm
    · next e hm =>
      simp only [Except.ok.injEq, Prod.mk.injEq] at hres
      rw [← hres.1, lookup_set_init_dict, hk]
      rfl

/-- A freshly initialized two-parameter model for the C6 witness. -/
def demo_fresh_model : StateDict :=
  [("layer.w", ⟨[2], 0⟩), ("layer.b", ⟨[3], 0⟩)]

/-- A checkpoint whose second parameter has a mismatched shape. -/
def demo_ckpt : Checkpoint :=
  ⟨[("layer.w", ⟨[2], 9⟩), ("layer.b", ⟨[4], 9⟩)], none, 7⟩

/-- The model dict the fallback produces for the C6 witness: the matching
parameter copied, the mismatched one kept fresh. -/
def demo_restored_model : StateDict :=
  [("layer.w", ⟨[2], 9⟩), ("layer.b", ⟨[3], 0⟩)]

/-- Witness for C6: restoring a shape-mismatched checkpoint raises nothing
and the matching parameter `layer.w` takes the checkpoint's tensor. -/
theorem claim6_witness :
    (∀ e, restore_models demo_fresh_model [] demo_ckpt ≠ .error e) ∧
    List.lookup "layer.w" demo_restored_model
      = some (partial_value demo_ckpt.model "layer.w" ⟨[2], 0⟩) :=
  claim6_restore_fallback demo_fresh_model [] demo_ckpt "layer.w" ⟨[2], 0⟩
    demo_restored_model [] rfl rfl

end ValuTTS
